import Mathlib

/-!
A shallow embedding of the popup lifecycle core of this repository.

It covers the `PopupState` delayed-intent state machine and the `popup`
binding class that orchestrates show/hide of popup content.  External
collaborators (shared-popups registry queries, the Aligner, transitions,
the layout watcher, the DOM) are modelled as an explicit environment of
oracle inputs; DOM and registry effects performed by the binding are
recorded as an emitted action trace, together with a few DOM facts
(whether the popup root is attached) tracked in the binding state.

Events (`do-show`, `do-hide`, `opened-change`, `will-align`) fire
synchronously in the source.  The embedding keeps the layers separate:
a method that fires an event emits the corresponding action, and the
handler that would run on that event is modelled as its own function.
The two asynchronous suspension points (waiting for the render pipeline
via `untilComplete`, and waiting for a leave transition) are modelled by
splitting the suspended method into a start function and a resume
function; the value the awaited promise resolves to is a parameter of
the resume function.
-/

namespace FlitUI

/-- Actions: events fired by `PopupState` or the binding, plus calls into
external collaborators (DOM, registry, binder, transition, watcher). -/
inductive BAction where
  | fireDoShow
  | fireDoHide
  | fireWillAlign
  | fireOpenedChange (opened : Bool)
  | bindEnter
  | bindLeave
  | bindLeaveBeforeShow
  | unbindLeave
  | setRenderedRenderer
  | renderContent
  | untilCompleteAwait
  | setBindingOf (popupId : Nat)
  | setPointerStyle (popupId : Nat) (pointable : Bool)
  | appendToDocument (popupId : Nat)
  | removePopup (popupId : Nat)
  | registryAdd (key : String) (popupId renderedId : Nat)
  | registrySetUser (popupId : Nat)
  | newAlignerFor (contentId anchorId : Nat)
  | alignAttempt (ok : Bool)
  | focusPopup (popupId : Nat)
  | enterTransitionStart
  | leaveTransitionStart
  | watchRect
  | unwatchRectCall
  deriving DecidableEq, Repr

/-- State of the `PopupState` class.  The `showTimeout` / `hideTimeout`
fields hold the id of the `Timeout` handle currently stored in the
corresponding field of the object (the source never nulls `showTimeout`
in `willNotShow`, so a cancelled handle can remain stored).  The
`activeShowTimers` / `activeHideTimers` lists hold the ids of timers that
are scheduled and neither fired nor cancelled yet; `nextTimerId` supplies
fresh ids. -/
structure PopupState where
  opened : Bool
  willShowSoon : Bool
  willHideSoon : Bool
  showTimeout : Option Nat
  hideTimeout : Option Nat
  activeShowTimers : List Nat
  activeHideTimers : List Nat
  nextTimerId : Nat
  deriving DecidableEq, Repr

/-- The initial `PopupState`: nothing opened, nothing pending. -/
def PopupState.init : PopupState :=
  { opened := false, willShowSoon := false, willHideSoon := false
    showTimeout := none, hideTimeout := none
    activeShowTimers := [], activeHideTimers := [], nextTimerId := 0 }

/-- `willNotShow`: cancels the stored show timeout handle (if any) and
clears `willShowSoon`.  The handle itself stays stored. -/
def PopupState.willNotShow (s : PopupState) : PopupState :=
  { s with
    activeShowTimers :=
      match s.showTimeout with
      | some id => s.activeShowTimers.erase id
      | none => s.activeShowTimers
    willShowSoon := false }

/-- `willNotHide`: cancels the stored hide timeout handle (if any),
nulls the stored handle and clears `willHideSoon`. -/
def PopupState.willNotHide (s : PopupState) : PopupState :=
  { s with
    activeHideTimers :=
      match s.hideTimeout with
      | some id => s.activeHideTimers.erase id
      | none => s.activeHideTimers
    hideTimeout := none
    willHideSoon := false }

/-- `show()`: cancels both pending intents, then opens and fires
`do-show` if not yet opened. -/
def PopupState.show' (s : PopupState) : PopupState × List BAction :=
  let s1 := s.willNotShow.willNotHide
  if s1.opened then (s1, [])
  else ({ s1 with opened := true }, [BAction.fireDoShow])

/-- `hide()`: cancels both pending intents, then closes and fires
`do-hide` if currently opened. -/
def PopupState.hide' (s : PopupState) : PopupState × List BAction :=
  let s1 := s.willNotShow.willNotHide
  if s1.opened then ({ s1 with opened := false }, [BAction.fireDoHide])
  else (s1, [])

/-- `willShow(showDelay)`: rejected while opened or while a show is
already pending; with positive delay schedules a fresh show timer and
sets `willShowSoon`; otherwise shows immediately.  Returns the new
state, whether the request was sent, and the fired events. -/
def PopupState.willShow (s : PopupState) (showDelay : Int) :
    PopupState × Bool × List BAction :=
  if s.opened || s.willShowSoon then (s, false, [])
  else if showDelay > 0 then
    ({ s with
        showTimeout := some s.nextTimerId
        activeShowTimers := s.nextTimerId :: s.activeShowTimers
        nextTimerId := s.nextTimerId + 1
        willShowSoon := true }, true, [])
  else
    let r := s.show'
    (r.1, true, r.2)

/-- `willHide(hideDelay)`: rejected while not opened or while a hide is
already pending; with positive delay schedules a fresh hide timer and
sets `willHideSoon`; otherwise hides immediately. -/
def PopupState.willHide (s : PopupState) (hideDelay : Int) :
    PopupState × Bool × List BAction :=
  if !s.opened || s.willHideSoon then (s, false, [])
  else if hideDelay > 0 then
    ({ s with
        hideTimeout := some s.nextTimerId
        activeHideTimers := s.nextTimerId :: s.activeHideTimers
        nextTimerId := s.nextTimerId + 1
        willHideSoon := true }, true, [])
  else
    let r := s.hide'
    (r.1, true, r.2)

/-- `clear()`: cancels both pending intents and forces closed without
firing any event. -/
def PopupState.clear (s : PopupState) : PopupState :=
  { s.willNotShow.willNotHide with opened := false }

/-- The show timer `id` elapses.  Only a scheduled, uncancelled, unfired
timer can elapse.  Its callback nulls the stored handle and calls
`show()`. -/
def PopupState.fireShowTimer (s : PopupState) (id : Nat) :
    PopupState × List BAction :=
  if id ∈ s.activeShowTimers then
    PopupState.show'
      { s with activeShowTimers := s.activeShowTimers.erase id, showTimeout := none }
  else (s, [])

/-- The hide timer `id` elapses.  Its callback just calls `hide()` (the
source callback does not null the stored handle itself). -/
def PopupState.fireHideTimer (s : PopupState) (id : Nat) :
    PopupState × List BAction :=
  if id ∈ s.activeHideTimers then
    PopupState.hide'
      { s with activeHideTimers := s.activeHideTimers.erase id }
  else (s, [])

/-- One interaction with a `PopupState`: a public method call or the
elapsing of one of its timers. -/
inductive PSOp where
  | willShow (delay : Int)
  | willNotShow
  | willHide (delay : Int)
  | willNotHide
  | show
  | hide
  | clear
  | elapseShow (id : Nat)
  | elapseHide (id : Nat)
  deriving DecidableEq, Repr

/-- Interpretation of one `PSOp` on a `PopupState`. -/
def PopupState.stepOp (s : PopupState) : PSOp → PopupState × List BAction
  | .willShow d => let r := s.willShow d; (r.1, r.2.2)
  | .willNotShow => (s.willNotShow, [])
  | .willHide d => let r := s.willHide d; (r.1, r.2.2)
  | .willNotHide => (s.willNotHide, [])
  | .show => s.show'
  | .hide => s.hide'
  | .clear => (s.clear, [])
  | .elapseShow id => s.fireShowTimer id
  | .elapseHide id => s.fireHideTimer id

/-- Run a sequence of operations, collecting all fired events. -/
def PopupState.run (s : PopupState) : List PSOp → PopupState × List BAction
  | [] => (s, [])
  | op :: rest =>
    let r1 := s.stepOp op
    let r2 := r1.1.run rest
    (r2.1, r1.2 ++ r2.2)

/-- All states passed through while running a sequence of operations,
including the initial and final ones. -/
def PopupState.runStates (s : PopupState) : List PSOp → List PopupState
  | [] => [s]
  | op :: rest => s :: (s.stepOp op).1.runStates rest

/-- Operations available in a pure show-side interaction sequence:
`willShow` and `willNotShow` calls, plus show timers elapsing. -/
def isShowSideOp : PSOp → Bool
  | .willShow _ => true
  | .willNotShow => true
  | .elapseShow _ => true
  | _ => false

/-- Trigger types recognized by the popup trigger binder. -/
inductive TriggerType where
  | hover
  | click
  | focus
  | contextmenu
  | none
  deriving DecidableEq, Repr

/-- Options consumed by the Aligner collaborator, as assembled by
`popup.getAlignerOptions`. -/
structure AlignerOptions where
  gap : Int
  stickToEdges : Bool
  canSwapPosition : Bool
  canShrinkOnY : Bool
  fixTriangle : Bool
  triangle : Option Nat
  deriving DecidableEq, Repr

/-- The effective popup options held by a binding.  Optional object
fields (the sharing key, the align-to selector, the transition spec) are
modelled as options; the transition spec itself is opaque, so only its
presence (truthiness) is kept. -/
structure PopupOptions where
  key : Option String
  trigger : TriggerType
  alignTo : Option Nat
  alignPosition : String
  showDelay : Int
  hideDelay : Int
  transition : Bool
  showImmediately : Bool
  autoFocus : Bool
  pointable : Bool
  cacheable : Bool
  keepVisible : Bool
  gap : Int
  stickToEdges : Bool
  canSwapPosition : Bool
  canShrinkOnY : Bool
  fixTriangle : Bool
  deriving DecidableEq, Repr

/-- JavaScript truthiness of an optional string: `undefined` and the
empty string are falsy. -/
def strTruthy : Option String → Bool
  | Option.none => false
  | some s => s != ""

/-- The `DefaultPopupOptions` constant of the binding source file.  The
default transition is `fade()`, a present spec, so `transition := true`;
`key` and `alignTo` are absent from the defaults. -/
def DefaultPopupOptions : PopupOptions :=
  { key := Option.none
    trigger := TriggerType.hover
    alignTo := Option.none
    alignPosition := "b"
    showDelay := 100
    hideDelay := 200
    transition := true
    showImmediately := false
    autoFocus := false
    pointable := true
    cacheable := false
    keepVisible := false
    gap := 4
    stickToEdges := true
    canSwapPosition := true
    canShrinkOnY := true
    fixTriangle := false }

/-- The partial options argument of `popup.update`: each field is
present or absent. -/
structure PartialPopupOptions where
  key : Option String := Option.none
  trigger : Option TriggerType := Option.none
  alignTo : Option Nat := Option.none
  alignPosition : Option String := Option.none
  showDelay : Option Int := Option.none
  hideDelay : Option Int := Option.none
  transition : Option Bool := Option.none
  showImmediately : Option Bool := Option.none
  autoFocus : Option Bool := Option.none
  pointable : Option Bool := Option.none
  cacheable : Option Bool := Option.none
  keepVisible : Option Bool := Option.none
  gap : Option Int := Option.none
  stickToEdges : Option Bool := Option.none
  canSwapPosition : Option Bool := Option.none
  canShrinkOnY : Option Bool := Option.none
  fixTriangle : Option Bool := Option.none
  deriving DecidableEq, Repr

/-- The option merge performed by `popup.update`: the object spread of
the given partial options over `DefaultPopupOptions`.  The defaults do
not carry `key` or `alignTo`, so those come from the partial options
alone. -/
def mergeOptions (o : PartialPopupOptions) : PopupOptions :=
  { key := o.key
    trigger := o.trigger.getD DefaultPopupOptions.trigger
    alignTo := o.alignTo
    alignPosition := o.alignPosition.getD DefaultPopupOptions.alignPosition
    showDelay := o.showDelay.getD DefaultPopupOptions.showDelay
    hideDelay := o.hideDelay.getD DefaultPopupOptions.hideDelay
    transition := o.transition.getD DefaultPopupOptions.transition
    showImmediately := o.showImmediately.getD DefaultPopupOptions.showImmediately
    autoFocus := o.autoFocus.getD DefaultPopupOptions.autoFocus
    pointable := o.pointable.getD DefaultPopupOptions.pointable
    cacheable := o.cacheable.getD DefaultPopupOptions.cacheable
    keepVisible := o.keepVisible.getD DefaultPopupOptions.keepVisible
    gap := o.gap.getD DefaultPopupOptions.gap
    stickToEdges := o.stickToEdges.getD DefaultPopupOptions.stickToEdges
    canSwapPosition := o.canSwapPosition.getD DefaultPopupOptions.canSwapPosition
    canShrinkOnY := o.canShrinkOnY.getD DefaultPopupOptions.canShrinkOnY
    fixTriangle := o.fixTriangle.getD DefaultPopupOptions.fixTriangle }

/-- Oracle inputs from external collaborators, sampled where the binding
calls into them: the shared-popups registry (not part of this source
tree), `Popup.from`, `Aligner.align`, the viewport intersection test,
the align-to selector resolution, the triangle query, the DOM owner
document test and the focusability test.  Element, popup-component and
render-result identities are plain numbers. -/
structure Env where
  isCacheOpened : String → Bool
  findCache : String → Option (Nat × Nat)
  renderFresh : Nat
  popupFrom : Nat → Option Nat
  alignOk : Bool
  intersectsViewport : Bool
  alignToResolved : Nat → Option Nat
  triangle : Option Nat
  ownerDocumentSet : Bool
  popupTabIndexFocusable : Bool

/-- State of one `popup` binding instance, mirroring the fields of the
binding class.  `binderTrigger` is the trigger type held by its
`PopupTriggerBinder`; `unwatchRect` records whether the binding holds a
live rect-watch unbinder (the source field is `noop` otherwise);
`popupInDocument` tracks the one DOM fact the claims are about, namely
whether the popup root element is currently attached to the document. -/
structure Binding where
  el : Nat
  state : PopupState
  binderTrigger : TriggerType
  options : PopupOptions
  renderer : Option Nat
  unwatchRect : Bool
  rendered : Option Nat
  popup : Option Nat
  aligner : Option (Nat × Nat)
  preventedHiding : Bool
  popupInDocument : Bool
  deriving DecidableEq, Repr

namespace popup

/-- `showPopupLater()`: starts from the configured show delay, zeroes it
when a same-keyed cached popup is already opened or when the trigger
type is `click` or `focus`, delegates to `PopupState.willShow`, and on
success binds the pre-show leave listeners. -/
def showPopupLater (env : Env) (b : Binding) : Binding × List BAction :=
  let showDelay := b.options.showDelay
  let key := b.options.key
  let showDelay :=
    if strTruthy key && env.isCacheOpened (key.getD "") then 0 else showDelay
  let showDelay :=
    if b.binderTrigger == TriggerType.click || b.binderTrigger == TriggerType.focus
    then 0 else showDelay
  let r := b.state.willShow showDelay
  let b1 := { b with state := r.1 }
  if r.2.1 then (b1, r.2.2 ++ [BAction.bindLeaveBeforeShow])
  else (b1, r.2.2)

/-- `showPopup()`: immediate show request, delegated to the state. -/
def showPopup (b : Binding) : Binding × List BAction :=
  let r := b.state.show'
  ({ b with state := r.1 }, r.2)

/-- `hidePopupLater()`: delegates to `PopupState.willHide` with the
configured hide delay. -/
def hidePopupLater (b : Binding) : Binding × List BAction :=
  let hideDelay := b.options.hideDelay
  let r := b.state.willHide hideDelay
  ({ b with state := r.1 }, r.2.2)

/-- `hidePopup()`: immediate hide request, delegated to the state. -/
def hidePopup (b : Binding) : Binding × List BAction :=
  let r := b.state.hide'
  ({ b with state := r.1 }, r.2)

/-- Handler of the will-show intent from the binder. -/
def onWillShow (env : Env) (b : Binding) : Binding × List BAction :=
  showPopupLater env b

/-- Handler of the will-hide intent from the binder: while `keepVisible`
is set it only records a prevented hiding; otherwise it requests a
delayed hide. -/
def onWillHide (b : Binding) : Binding × List BAction :=
  if b.options.keepVisible then ({ b with preventedHiding := true }, [])
  else hidePopupLater b

/-- Handler of the cancel-show intent from the binder. -/
def onCancelShow (b : Binding) : Binding × List BAction :=
  if b.state.opened then hidePopup b
  else ({ b with state := b.state.willNotShow }, [])

/-- Handler of the immediate-hide intent from the binder. -/
def onImmediateHide (b : Binding) : Binding × List BAction :=
  if b.options.keepVisible then ({ b with preventedHiding := true }, [])
  else hidePopup b

/-- Handler of the toggle-show-hide intent from the binder. -/
def onToggleShowHide (b : Binding) : Binding × List BAction :=
  if b.state.opened then
    let r := b.state.hide'
    ({ b with state := r.1 }, r.2)
  else
    let r := b.state.show'
    ({ b with state := r.1 }, r.2)

/-- `getAlignToElement()`: the trigger element itself when `alignTo` is
absent, else the resolved descendant with the trigger element as
fallback when resolution yields nothing. -/
def getAlignToElement (env : Env) (b : Binding) : Nat :=
  match b.options.alignTo with
  | Option.none => b.el
  | some a => (env.alignToResolved a).getD b.el

/-- `getAlignerOptions()`: the option record passed to a newly
constructed Aligner.  The source assigns `this.options.stickToEdges` to
the `canSwapPosition` field. -/
def getAlignerOptions (env : Env) (b : Binding) : AlignerOptions :=
  { gap := b.options.gap
    stickToEdges := b.options.stickToEdges
    canSwapPosition := b.options.stickToEdges
    canShrinkOnY := b.options.canShrinkOnY
    fixTriangle := b.options.fixTriangle
    triangle := env.triangle }

/-- `alignPopup()`: nothing to do when not opened; otherwise fires
`will-align`, rebuilds the Aligner when the anchor or content changed,
attempts the alignment, and hides the popup when the attempt failed.
The source dereferences `this.popup!`, assuming a popup component is
tracked; an absent one is represented by id `0` here. -/
def alignPopup (env : Env) (b : Binding) : Binding × Bool × List BAction :=
  if !b.state.opened then (b, false, [])
  else
    let acts := [BAction.fireWillAlign]
    let alignTo := getAlignToElement env b
    let contentId := b.popup.getD 0
    let needNew :=
      match b.aligner with
      | Option.none => true
      | some pr => pr.2 != alignTo || pr.1 != contentId
    let b1 := if needNew then { b with aligner := some (contentId, alignTo) } else b
    let acts := if needNew then acts ++ [BAction.newAlignerFor contentId alignTo] else acts
    let aligned := env.alignOk
    let acts := acts ++ [BAction.alignAttempt aligned]
    if !aligned then
      let r := b1.state.hide'
      ({ b1 with state := r.1 }, false, acts ++ r.2)
    else (b1, true, acts)

/-- `onTriggerRectChanged()`: realign while the trigger rect still
intersects the viewport, else force-hide; afterwards the stored
unbinder is replaced by `noop`. -/
def onTriggerRectChanged (env : Env) (b : Binding) : Binding × List BAction :=
  let r :=
    if env.intersectsViewport then
      let ra := alignPopup env b
      (ra.1, ra.2.2)
    else
      let rh := b.state.hide'
      ({ b with state := rh.1 }, rh.2)
  ({ r.1 with unwatchRect := false }, r.2)

/-- `mayGetFocus()`: focuses the popup root only for `autoFocus` with a
non-hover, non-focus trigger and a focusable root. -/
def mayGetFocus (env : Env) (b : Binding) : List BAction :=
  if b.options.autoFocus
      && !(b.binderTrigger == TriggerType.hover)
      && !(b.binderTrigger == TriggerType.focus)
      && env.popupTabIndexFocusable
  then [BAction.focusPopup (b.popup.getD 0)]
  else []

/-- `appendPopup()`: samples whether the popup element already has an
owner document, appends it (even if attached, to guarantee stacking),
aligns it, and only on successful alignment proceeds to optional focus,
a possible enter transition and rect watching. -/
def appendPopup (env : Env) (b : Binding) : Binding × List BAction :=
  let inDomAlready := env.ownerDocumentSet
  let b1 := { b with popupInDocument := true }
  let acts := [BAction.appendToDocument (b1.popup.getD 0)]
  let ra := alignPopup env b1
  let b2 := ra.1
  let acts := acts ++ ra.2.2
  if !ra.2.1 then (b2, acts)
  else
    let acts := acts ++ mayGetFocus env b2
    let acts :=
      if !inDomAlready && b2.options.transition
      then acts ++ [BAction.enterTransitionStart] else acts
    ({ b2 with unwatchRect := true }, acts ++ [BAction.watchRect])

/-- `updateRenderedProperty()`: refreshes the renderer of an existing
render result, else adopts a same-keyed cache entry, else renders
fresh content. -/
def updateRenderedProperty (env : Env) (b : Binding) : Binding × List BAction :=
  let acts := if b.rendered.isSome then [BAction.setRenderedRenderer] else []
  let b1 :=
    if b.rendered.isNone then
      match
        (if strTruthy b.options.key then env.findCache (b.options.key.getD "")
         else Option.none) with
      | some pr => { b with rendered := some pr.2, popup := some pr.1 }
      | Option.none => b
    else b
  if b1.rendered.isNone then
    ({ b1 with rendered := some env.renderFresh }, acts ++ [BAction.renderContent])
  else (b1, acts)

/-- The synchronous prefix of `updatePopup()`: update the rendered
property, then await `untilComplete()`, suspending. -/
def updatePopupStart (env : Env) (b : Binding) : Binding × List BAction :=
  let r := updateRenderedProperty env b
  (r.1, r.2 ++ [BAction.untilCompleteAwait])

/-- The error message thrown when the rendered root is not a Popup. -/
def popupTypeErrorMsg : String :=
  "The \"renderer\" of \":popup(renderer)\" must render a \"<Popup>\" type of component!"

/-- The resumption of `updatePopup()` after the render pipeline settled:
recheck `opened` and abort silently when a hide raced in; resolve the
popup root from the first element child and throw when it is not a
Popup component; then style pointer events, adopt a changed popup
component, append and align, and register into the shared cache when
keyed.  The first component carries a thrown error message, if any. -/
def updatePopupResume (env : Env) (b : Binding) :
    Option String × Binding × List BAction :=
  if !b.state.opened then (Option.none, b, [])
  else
    match env.popupFrom (b.rendered.getD 0) with
    | Option.none => (some popupTypeErrorMsg, b, [])
    | some p =>
      let acts := [BAction.setPointerStyle p b.options.pointable]
      let bAndActs :=
        if some p != b.popup then
          ({ b with popup := some p },
            acts ++ [BAction.setBindingOf p, BAction.bindLeave])
        else (b, acts)
      let b1 := bAndActs.1
      let ra := appendPopup env b1
      let acts := bAndActs.2 ++ ra.2
      if strTruthy b1.options.key then
        (Option.none, ra.1,
          acts ++ [BAction.registryAdd (b1.options.key.getD "") p (b1.rendered.getD 0),
            BAction.registrySetUser p])
      else (Option.none, ra.1, acts)

/-- The synchronous prefix of `doingHidePopup()`: with a configured
transition it starts the leave transition and suspends (second
component `true`); otherwise it unbinds leave listeners, stops rect
watching and resets `preventedHiding` at once. -/
def doingHidePopupStart (b : Binding) : Binding × Bool × List BAction :=
  if b.options.transition then (b, true, [BAction.leaveTransitionStart])
  else
    ({ b with unwatchRect := false, preventedHiding := false }, false,
      [BAction.unbindLeave, BAction.unwatchRectCall])

/-- The resumption of `doingHidePopup()` once the leave transition wait
resolves with `finish`: a finished transition removes the popup node;
then, when `opened` became true again, the remaining cleanup is
skipped, else leave listeners are unbound, rect watching stops and
`preventedHiding` resets. -/
def doingHidePopupResume (finish : Bool) (b : Binding) : Binding × List BAction :=
  let r :=
    if finish then
      match b.popup with
      | some p => ({ b with popupInDocument := false }, [BAction.removePopup p])
      | Option.none => (b, ([] : List BAction))
    else (b, [])
  let b1 := r.1
  if b1.state.opened then (b1, r.2)
  else
    ({ b1 with unwatchRect := false, preventedHiding := false },
      r.2 ++ [BAction.unbindLeave, BAction.unwatchRectCall])

/-- `update(renderer, options)`: stores the renderer, merges the options
over the defaults, synchronously begins a popup content update when
already opened (an async call runs up to its first await), and issues a
delayed hide when a hide was prevented and the new options no longer
keep the popup visible. -/
def update (env : Env) (renderer : Nat) (opts : PartialPopupOptions) (b : Binding) :
    Binding × List BAction :=
  let b1 := { b with renderer := some renderer, options := mergeOptions opts }
  let r1 :=
    if b1.state.opened then updatePopupStart env b1
    else (b1, ([] : List BAction))
  let b2 := r1.1
  if b2.preventedHiding && !b2.options.keepVisible then
    let r2 := hidePopupLater b2
    (r2.1, r1.2 ++ r2.2)
  else (b2, r1.2)

/-- `afterConnectCallback`: adopts the configured trigger type into the
binder, binds enter listeners, and optionally shows immediately. -/
def afterConnectCallback (env : Env) (b : Binding) : Binding × List BAction :=
  let b1 := { b with binderTrigger := b.options.trigger }
  if b1.options.showImmediately then
    let r := showPopupLater env b1
    (r.1, BAction.bindEnter :: r.2)
  else (b1, [BAction.bindEnter])

end popup

/-- The single-show-timer invariant of a `PopupState`: either no show
timer is scheduled, or exactly one is, its handle is the stored one and
a show is pending. -/
def ShowTimerInv (s : PopupState) : Prop :=
  s.activeShowTimers = []
  ∨ ∃ id, s.activeShowTimers = [id] ∧ s.showTimeout = some id ∧ s.willShowSoon = true

/-- A `PopupState` that has opened its popup and has nothing pending. -/
def openedState : PopupState := { PopupState.init with opened := true }

/-- A concrete environment: no cache hit, no recognized popup root, the
alignment attempt fails and the trigger rect left the viewport. -/
def env0 : Env :=
  { isCacheOpened := fun _ => true
    findCache := fun _ => Option.none
    renderFresh := 5
    popupFrom := fun _ => Option.none
    alignOk := false
    intersectsViewport := false
    alignToResolved := fun _ => Option.none
    triangle := Option.none
    ownerDocumentSet := true
    popupTabIndexFocusable := false }

/-- A concrete opened binding with default options (a leave transition
is configured by default) holding a popup that is in the document. -/
def bReopen : Binding :=
  { el := 1
    state := openedState
    binderTrigger := TriggerType.hover
    options := DefaultPopupOptions
    renderer := some 4
    unwatchRect := true
    rendered := some 2
    popup := some 3
    aligner := Option.none
    preventedHiding := false
    popupInDocument := true }

/-- A concrete opened binding configured with `keepVisible`. -/
def bKeep : Binding :=
  { bReopen with options := { DefaultPopupOptions with keepVisible := true } }

/-- A concrete binding whose popup state is back to hidden. -/
def bClosed : Binding := { bReopen with state := PopupState.init }

/-- A concrete binding configured with `canSwapPosition` differing from
`stickToEdges`. -/
def bSwap : Binding :=
  { bReopen with
    options := { DefaultPopupOptions with canSwapPosition := false, stickToEdges := true } }

/-- A concrete show-side interaction sequence: a delayed show request,
its cancellation, a second delayed request, its timer elapsing, and two
follow-up requests while opened. -/
def opsW : List PSOp :=
  [PSOp.willShow 5, PSOp.willNotShow, PSOp.willShow 3, PSOp.elapseShow 1,
    PSOp.willShow 0, PSOp.willShow 2]

/-- C4: `PopupState.willShow` returns `false`, fires no event and
changes nothing (in particular schedules no timer) whenever `opened` is
true or a show is already pending; otherwise it returns `true` and
either fires `do-show` immediately with `opened` set and no new timer
(delay at most zero), or schedules exactly one new show timer and sets
`willShowSoon` without firing anything (positive delay). -/
theorem c4_willShow_characterization (s : PopupState) (d : Int) :
    ((s.opened = true ∨ s.willShowSoon = true) → s.willShow d = (s, false, []))
    ∧ (s.opened = false → s.willShowSoon = false →
        ((s.willShow d).2.1 = true
        ∧ (d ≤ 0 →
            (s.willShow d).2.2 = [BAction.fireDoShow]
            ∧ (s.willShow d).1.opened = true
            ∧ (s.willShow d).1.activeShowTimers.length ≤ s.activeShowTimers.length)
        ∧ (0 < d →
            (s.willShow d).2.2 = []
            ∧ (s.willShow d).1.opened = false
            ∧ (s.willShow d).1.willShowSoon = true
            ∧ (s.willShow d).1.activeShowTimers = s.nextTimerId :: s.activeShowTimers))) := by
  constructor
  · intro h
    have hc : (s.opened || s.willShowSoon) = true := by
      rcases h with h | h <;> simp [h]
    simp [PopupState.willShow, hc]
  · intro h1 h2
    have hc : (s.opened || s.willShowSoon) = false := by simp [h1, h2]
    refine ⟨?_, ?_, ?_⟩
    · simp only [PopupState.willShow, hc, Bool.false_eq_true, if_false]
      split <;> rfl
    · intro hd
      have hnd : ¬ (d > 0) := not_lt.mpr hd
      simp only [PopupState.willShow, hc, Bool.false_eq_true, if_false, hnd]
      have hopen : (s.willNotShow.willNotHide).opened = false := h1
      refine ⟨?_, ?_, ?_⟩
      · simp [PopupState.show', hopen]
      · simp [PopupState.show', hopen]
      · simp only [PopupState.show', hopen, Bool.false_eq_true, if_false]
        show (s.willNotShow.willNotHide).activeShowTimers.length ≤ _
        simp only [PopupState.willNotShow, PopupState.willNotHide]
        cases hst : s.showTimeout with
        | none => simp
        | some id => exact (List.erase_sublist _ _).length_le
    · intro hd
      simp [PopupState.willShow, hc, hd, h1, h2]

/-- Witness for C4 at concrete inputs: `willShow 0` on an opened state
is rejected with no event, and `willShow 50` from the initial state is
accepted and leaves a pending show. -/
theorem c4_willShow_witness :
    (openedState.willShow 0 = (openedState, false, []))
    ∧ (PopupState.init.willShow 50).2.1 = true
    ∧ (PopupState.init.willShow 50).1.willShowSoon = true :=
  ⟨(c4_willShow_characterization openedState 0).1 (Or.inl rfl),
    ((c4_willShow_characterization PopupState.init 50).2 rfl rfl).1,
    ((((c4_willShow_characterization PopupState.init 50).2 rfl rfl).2.2) (by decide)).2.2.1⟩

/-- C10: the option record handed to a freshly constructed Aligner
assigns the configured `stickToEdges` value to its `canSwapPosition`
field, so whenever the configured `canSwapPosition` differs from
`stickToEdges` the configured value is ignored. -/
theorem c10_canSwapPosition_takes_stickToEdges (env : Env) (b : Binding) :
    (popup.getAlignerOptions env b).canSwapPosition = b.options.stickToEdges
    ∧ (b.options.canSwapPosition ≠ b.options.stickToEdges →
        (popup.getAlignerOptions env b).canSwapPosition ≠ b.options.canSwapPosition) := by
  refine ⟨rfl, ?_⟩
  intro h
  simpa [popup.getAlignerOptions] using Ne.symm h

/-- Witness for C10: a binding configured with `canSwapPosition false`
and `stickToEdges true` gets an Aligner that can swap position. -/
theorem c10_canSwapPosition_witness :
    (popup.getAlignerOptions env0 bSwap).canSwapPosition ≠ bSwap.options.canSwapPosition :=
  (c10_canSwapPosition_takes_stickToEdges env0 bSwap).2 (by decide)

/-- C2 counterexample: on an opened binding whose options set
`keepVisible`, calling `hidePopupLater()` is not suppressed: it
delegates to `PopupState.willHide` (a hide timer becomes pending) and
leaves `preventedHiding` false. -/
theorem c2_counterexample_hidePopupLater_not_suppressed :
    bKeep.options.keepVisible = true
    ∧ (popup.hidePopupLater bKeep).1.state.willHideSoon = true
    ∧ (popup.hidePopupLater bKeep).1.state.activeHideTimers ≠ []
    ∧ (popup.hidePopupLater bKeep).1.preventedHiding = false := by decide

/-- C2 amended: the `keepVisible` suppression lives in the will-hide
intent handler, not in `hidePopupLater`: while `keepVisible` is set,
`onWillHide` only flags `preventedHiding` and delegates nothing to the
state; without `keepVisible` it calls `hidePopupLater`; and
`hidePopupLater` itself always delegates to `PopupState.willHide` with
the configured delay, regardless of `keepVisible`. -/
theorem c2_amended_suppression_in_onWillHide (b : Binding) :
    (b.options.keepVisible = true →
        popup.onWillHide b = ({ b with preventedHiding := true }, []))
    ∧ (b.options.keepVisible = false →
        popup.onWillHide b = popup.hidePopupLater b)
    ∧ popup.hidePopupLater b
        = ({ b with state := (b.state.willHide b.options.hideDelay).1 },
            (b.state.willHide b.options.hideDelay).2.2) := by
  refine ⟨?_, ?_, rfl⟩
  · intro h
    simp [popup.onWillHide, h]
  · intro h
    simp [popup.onWillHide, h]

/-- Witness for C2 amended: with `keepVisible` set, the will-hide intent
only flags the prevented hiding. -/
theorem c2_amended_witness :
    popup.onWillHide bKeep = ({ bKeep with preventedHiding := true }, []) :=
  (c2_amended_suppression_in_onWillHide bKeep).1 rfl

/-- C3: `showPopupLater` computes the effective show delay as zero when
a same-keyed shared popup is already open, zero when the trigger type
is click or focus, and the configured `showDelay` otherwise; it hands
exactly that delay to `PopupState.willShow` and binds the pre-show
leave listeners exactly when the request was sent. -/
theorem c3_showPopupLater_effective_delay (env : Env) (b : Binding) :
    popup.showPopupLater env b
      = (let d : Int :=
          if (strTruthy b.options.key && env.isCacheOpened (b.options.key.getD "")) = true
          then 0
          else if (b.binderTrigger == TriggerType.click
                    || b.binderTrigger == TriggerType.focus) = true
          then 0
          else b.options.showDelay
        ({ b with state := (b.state.willShow d).1 },
          if (b.state.willShow d).2.1 = true
          then (b.state.willShow d).2.2 ++ [BAction.bindLeaveBeforeShow]
          else (b.state.willShow d).2.2)) := by
  by_cases h1 :
      (strTruthy b.options.key && env.isCacheOpened (b.options.key.getD "")) = true
    <;> by_cases h2 :
      (b.binderTrigger == TriggerType.click || b.binderTrigger == TriggerType.focus) = true
    <;> simp [popup.showPopupLater, h1, h2]
    <;> split
    <;> rfl

/-- C6: when the show sequence resumes after the render-settle wait and
a hide raced in (the state is no longer opened), it aborts with no
error, no change to the binding, and no emitted action: no popup-root
resolution, no pointer-events styling, no append, no registry update. -/
theorem c6_resume_aborts_on_hide_race (env : Env) (b : Binding)
    (h : b.state.opened = false) :
    popup.updatePopupResume env b = (Option.none, b, []) := by
  simp [popup.updatePopupResume, h]

/-- Witness for C6: a concrete resume on a binding hidden during the
wait is a silent no-op. -/
theorem c6_resume_aborts_witness :
    popup.updatePopupResume env0 bClosed = (Option.none, bClosed, []) :=
  c6_resume_aborts_on_hide_race env0 bClosed rfl

/-- C7: when the show sequence resumes opened but the rendered first
element child is not a recognized Popup root, it throws the fatal
configuration error; at the throw point the binding is unchanged and no
action was emitted: no pointer-events styling, no append, no registry
insertion. -/
theorem c7_bad_popup_root_throws_before_mutation (env : Env) (b : Binding)
    (h1 : b.state.opened = true)
    (h2 : env.popupFrom (b.rendered.getD 0) = Option.none) :
    popup.updatePopupResume env b = (some popup.popupTypeErrorMsg, b, []) := by
  simp [popup.updatePopupResume, h1, h2]

/-- Witness for C7: a concrete resume whose renderer output has no
Popup root throws and mutates nothing. -/
theorem c7_bad_popup_root_witness :
    popup.updatePopupResume env0 bReopen = (some popup.popupTypeErrorMsg, bReopen, []) :=
  c7_bad_popup_root_throws_before_mutation env0 bReopen rfl rfl

/-- C1 counterexample: a hide resumption whose leave transition resolved
as finished removes the popup node even though `opened` is true again
at resolution time (a show raced in mid-transition): the popup content
does not remain in the document, refuting the claimed abort of the
removal. -/
theorem c1_counterexample_removal_despite_reopen :
    bReopen.options.transition = true
    ∧ bReopen.state.opened = true
    ∧ bReopen.popupInDocument = true
    ∧ (popup.doingHidePopupResume true bReopen).1.state.opened = true
    ∧ (popup.doingHidePopupResume true bReopen).1.popupInDocument = false := by decide

/-- C1 amended: with a leave transition configured, the hide start only
begins the transition and removes nothing; at resolution the popup node
is removed exactly when the transition reports finished, regardless of
`opened`; the `opened` recheck governs only the trailing cleanup: when
`opened` is true again, unbinding the leave listeners, stopping the
rect watch and resetting `preventedHiding` are all skipped, else they
all run. -/
theorem c1_amended_removal_gated_on_finish (b : Binding) (finish : Bool) :
    (b.options.transition = true →
        popup.doingHidePopupStart b = (b, true, [BAction.leaveTransitionStart]))
    ∧ (popup.doingHidePopupResume finish b).1.popupInDocument
        = (if finish = true ∧ b.popup.isSome = true then false else b.popupInDocument)
    ∧ (popup.doingHidePopupResume finish b).1.state = b.state
    ∧ (b.state.opened = true →
        ((popup.doingHidePopupResume finish b).1.preventedHiding = b.preventedHiding
        ∧ (popup.doingHidePopupResume finish b).1.unwatchRect = b.unwatchRect
        ∧ BAction.unbindLeave ∉ (popup.doingHidePopupResume finish b).2))
    ∧ (b.state.opened = false →
        ((popup.doingHidePopupResume finish b).1.preventedHiding = false
        ∧ (popup.doingHidePopupResume finish b).1.unwatchRect = false
        ∧ BAction.unbindLeave ∈ (popup.doingHidePopupResume finish b).2)) := by
  refine ⟨fun h => by simp [popup.doingHidePopupStart, h], ?_, ?_, ?_, ?_⟩
    <;> cases finish
    <;> rcases hp : b.popup with _ | p
    <;> cases ho : b.state.opened
    <;> simp [popup.doingHidePopupResume, hp, ho]

/-- Witness for C1 amended: with default options the hide start only
begins the leave transition, and a resumption on a no-longer-opened
binding runs the cleanup. -/
theorem c1_amended_witness :
    popup.doingHidePopupStart bReopen = (bReopen, true, [BAction.leaveTransitionStart])
    ∧ (popup.doingHidePopupResume false bClosed).1.preventedHiding = false :=
  ⟨(c1_amended_removal_gated_on_finish bReopen false).1 rfl,
    ((c1_amended_removal_gated_on_finish bClosed false).2.2.2.2 rfl).1⟩

/-- After `hide()` the state is not opened. -/
theorem hide'_fst_opened (s : PopupState) : (s.hide').1.opened = false := by
  simp only [PopupState.hide']
  split
  · rfl
  · next h => simpa using h

/-- `hide()` fires `do-hide` exactly when the state was opened. -/
theorem hide'_events (s : PopupState) :
    (s.hide').2 = if s.opened = true then [BAction.fireDoHide] else [] := by
  have hop : (s.willNotShow.willNotHide).opened = s.opened := rfl
  simp only [PopupState.hide']
  split
  · next h => simp [hop.symm.trans h]
  · next h => simp [hop ▸ Bool.not_eq_true _ ▸ h]

/-- C8: on a trigger rect change, while the trigger rect still
intersects the viewport the handler runs the realign path (the result
is exactly `alignPopup` with the stored unbinder replaced); when the
rect left the viewport the handler hides instead of aligning: the state
is `hide()`, no alignment attempt is made, and `do-hide` fires when the
popup was opened.  Separately, every failed alignment attempt leaves
the popup not opened. -/
theorem c8_rect_change_realign_or_hide (env : Env) (b : Binding) :
    (env.intersectsViewport = true →
        popup.onTriggerRectChanged env b
          = ({ (popup.alignPopup env b).1 with unwatchRect := false },
              (popup.alignPopup env b).2.2))
    ∧ (env.intersectsViewport = false →
        ((popup.onTriggerRectChanged env b).1.state = (b.state.hide').1
        ∧ (popup.onTriggerRectChanged env b).1.state.opened = false
        ∧ (∀ ok : Bool, BAction.alignAttempt ok ∉ (popup.onTriggerRectChanged env b).2)
        ∧ (b.state.opened = true →
            (popup.onTriggerRectChanged env b).2 = [BAction.fireDoHide])))
    ∧ ((popup.alignPopup env b).2.1 = false →
        (popup.alignPopup env b).1.state.opened = false) := by
  refine ⟨?_, ?_, ?_⟩
  · intro h
    simp [popup.onTriggerRectChanged, h]
  · intro h
    refine ⟨?_, ?_, ?_, ?_⟩
    · simp [popup.onTriggerRectChanged, h]
    · simp [popup.onTriggerRectChanged, h, hide'_fst_opened]
    · intro ok
      simp only [popup.onTriggerRectChanged, h, Bool.false_eq_true, if_false]
      simp [hide'_events]
    · intro ho
      simp [popup.onTriggerRectChanged, h, hide'_events, ho]
  · intro h
    by_cases ho : b.state.opened = true
    · by_cases ha : env.alignOk = true
      · exfalso
        simp [popup.alignPopup, ho, ha] at h
      · simp [popup.alignPopup, ho, ha, hide'_fst_opened]
    · have ho' : b.state.opened = false := Bool.not_eq_true _ ▸ ho
      simp [popup.alignPopup, ho']

/-- Witness for C8: on a concrete opened binding whose trigger left the
viewport, the rect-change handler hides the popup and fires `do-hide`. -/
theorem c8_rect_change_witness :
    (popup.onTriggerRectChanged env0 bReopen).1.state.opened = false
    ∧ (popup.onTriggerRectChanged env0 bReopen).2 = [BAction.fireDoHide] :=
  ⟨((c8_rect_change_realign_or_hide env0 bReopen).2.1 rfl).2.1,
    ((c8_rect_change_realign_or_hide env0 bReopen).2.1 rfl).2.2.2 rfl⟩

/-- `updateRenderedProperty` only touches the rendered content and the
tracked popup component, never the state machine, the options, the
renderer or the prevented-hiding flag. -/
theorem updateRenderedProperty_preserves (env : Env) (b : Binding) :
    (popup.updateRenderedProperty env b).1.state = b.state
    ∧ (popup.updateRenderedProperty env b).1.options = b.options
    ∧ (popup.updateRenderedProperty env b).1.renderer = b.renderer
    ∧ (popup.updateRenderedProperty env b).1.preventedHiding = b.preventedHiding := by
  simp only [popup.updateRenderedProperty]
  rcases hr : b.rendered with _ | r0
  · by_cases hk : strTruthy b.options.key = true
    · rcases hf : env.findCache (b.options.key.getD "") with _ | pr
      · simp [hr, hk, hf]
      · simp [hr, hk, hf]
    · simp [hr, hk]
  · simp [hr]

/-- `willHide` fires at most a single `do-hide` and nothing else. -/
theorem willHide_events_shape (s : PopupState) (d : Int) :
    (s.willHide d).2.2 = [] ∨ (s.willHide d).2.2 = [BAction.fireDoHide] := by
  simp only [PopupState.willHide]
  split
  · exact Or.inl rfl
  · split
    · exact Or.inl rfl
    · rw [hide'_events]
      split
      · exact Or.inr rfl
      · exact Or.inl rfl

/-- Starting a popup content update awaits the render pipeline. -/
theorem updatePopupStart_awaits (env : Env) (bb : Binding) :
    BAction.untilCompleteAwait ∈ (popup.updatePopupStart env bb).2 := by
  simp [popup.updatePopupStart]

/-- A delayed-hide request never awaits the render pipeline. -/
theorem hidePopupLater_no_await (bb : Binding) :
    BAction.untilCompleteAwait ∉ (popup.hidePopupLater bb).2 := by
  rcases willHide_events_shape bb.state bb.options.hideDelay with h | h <;>
    simp [popup.hidePopupLater, h]

/-- C9: `update` stores the renderer and the options merged over the
defaults (the empty partial options yield exactly the defaults), begins
the popup content update synchronously exactly when the popup is
opened (observable as awaiting the render pipeline to settle), and
issues `hidePopupLater` exactly when a hide was prevented while the new
effective options no longer keep the popup visible, making the
resulting state `willHide` at the merged hide delay. -/
theorem c9_update_merge_refresh_deferred_hide (env : Env) (r : Nat)
    (opts : PartialPopupOptions) (b : Binding) :
    mergeOptions {} = DefaultPopupOptions
    ∧ (popup.update env r opts b).1.options = mergeOptions opts
    ∧ (popup.update env r opts b).1.renderer = some r
    ∧ ((BAction.untilCompleteAwait ∈ (popup.update env r opts b).2) ↔ b.state.opened = true)
    ∧ (popup.update env r opts b).1.state
        = (if b.preventedHiding = true ∧ (mergeOptions opts).keepVisible = false
            then (b.state.willHide (mergeOptions opts).hideDelay).1
            else b.state) := by
  obtain ⟨hS, hO, hR, hP⟩ := updateRenderedProperty_preserves env
    { b with renderer := some r, options := mergeOptions opts }
  refine ⟨by decide, ?_, ?_, ?_, ?_⟩
  · simp only [popup.update, popup.updatePopupStart, popup.hidePopupLater]
    split <;> split <;> simp_all
  · simp only [popup.update, popup.updatePopupStart, popup.hidePopupLater]
    split <;> split <;> simp_all
  · simp only [popup.update]
    split
    · next ho =>
      have ho2 : b.state.opened = true := ho
      split <;> simp [ho2, updatePopupStart_awaits]
    · next ho =>
      have ho2 : b.state.opened = false := by simpa using ho
      split <;> simp [ho2, hidePopupLater_no_await]
  · simp only [popup.update, popup.updatePopupStart, popup.hidePopupLater]
    split
    · next ho =>
      split
      · next hcond =>
        have hc : b.preventedHiding = true ∧ (mergeOptions opts).keepVisible = false := by
          rw [hP, hO] at hcond
          simpa [Bool.and_eq_true, Bool.not_eq_true'] using hcond
        simp [if_pos hc, hS, hO]
      · next hcond =>
        have hc : ¬(b.preventedHiding = true ∧ (mergeOptions opts).keepVisible = false) := by
          rw [hP, hO] at hcond
          simpa [Bool.and_eq_true, Bool.not_eq_true'] using hcond
        simp [if_neg hc, hS]
    · next ho =>
      split
      · next hcond =>
        have hc : b.preventedHiding = true ∧ (mergeOptions opts).keepVisible = false := by
          simpa [Bool.and_eq_true, Bool.not_eq_true'] using hcond
        simp [if_pos hc]
      · next hcond =>
        have hc : ¬(b.preventedHiding = true ∧ (mergeOptions opts).keepVisible = false) := by
          simpa [Bool.and_eq_true, Bool.not_eq_true'] using hcond
        simp [if_neg hc]

/-- The single-show-timer invariant only depends on the show-side
fields. -/
theorem showTimerInv_of_fields {s t : PopupState} (h : ShowTimerInv s)
    (h1 : t.activeShowTimers = s.activeShowTimers)
    (h2 : t.showTimeout = s.showTimeout)
    (h3 : t.willShowSoon = s.willShowSoon) : ShowTimerInv t := by
  rcases h with h | ⟨id, ha, hst, hw⟩
  · exact Or.inl (h1.trans h)
  · exact Or.inr ⟨id, h1.trans ha, h2.trans hst, h3.trans hw⟩

/-- `willNotShow` preserves the single-show-timer invariant. -/
theorem showTimerInv_willNotShow {s : PopupState} (h : ShowTimerInv s) :
    ShowTimerInv s.willNotShow := by
  rcases h with h | ⟨id, ha, hst, hw⟩
  · left
    simp only [PopupState.willNotShow]
    cases hs : s.showTimeout <;> simp [h]
  · left
    simp only [PopupState.willNotShow]
    rw [hst, ha]
    simp

/-- `willNotHide` preserves the single-show-timer invariant. -/
theorem showTimerInv_willNotHide {s : PopupState} (h : ShowTimerInv s) :
    ShowTimerInv s.willNotHide :=
  showTimerInv_of_fields h rfl rfl rfl

/-- `show()` preserves the single-show-timer invariant. -/
theorem showTimerInv_show' {s : PopupState} (h : ShowTimerInv s) :
    ShowTimerInv (s.show').1 := by
  have h1 := showTimerInv_willNotHide (showTimerInv_willNotShow h)
  simp only [PopupState.show']
  split
  · exact h1
  · exact showTimerInv_of_fields h1 rfl rfl rfl

/-- `hide()` preserves the single-show-timer invariant. -/
theorem showTimerInv_hide' {s : PopupState} (h : ShowTimerInv s) :
    ShowTimerInv (s.hide').1 := by
  have h1 := showTimerInv_willNotHide (showTimerInv_willNotShow h)
  simp only [PopupState.hide']
  split
  · exact showTimerInv_of_fields h1 rfl rfl rfl
  · exact h1

/-- `willShow` preserves the single-show-timer invariant: it only ever
creates a timer while no show is pending, and the invariant forces the
timer list to be empty then. -/
theorem showTimerInv_willShow {s : PopupState} (d : Int) (h : ShowTimerInv s) :
    ShowTimerInv (s.willShow d).1 := by
  simp only [PopupState.willShow]
  split
  · exact h
  · next hc =>
    have hw : s.willShowSoon = false := by
      simp only [Bool.or_eq_true, not_or, Bool.not_eq_true] at hc
      exact hc.2
    split
    · have hempty : s.activeShowTimers = [] := by
        rcases h with h | ⟨id, ha, hst, hwS⟩
        · exact h
        · rw [hwS] at hw
          cases hw
      exact Or.inr ⟨s.nextTimerId, by simp [hempty], rfl, rfl⟩
    · exact showTimerInv_show' h

/-- `willHide` preserves the single-show-timer invariant. -/
theorem showTimerInv_willHide {s : PopupState} (d : Int) (h : ShowTimerInv s) :
    ShowTimerInv (s.willHide d).1 := by
  simp only [PopupState.willHide]
  split
  · exact h
  · split
    · exact showTimerInv_of_fields h rfl rfl rfl
    · exact showTimerInv_hide' h

/-- A show timer elapsing preserves the single-show-timer invariant. -/
theorem showTimerInv_fireShowTimer {s : PopupState} (id : Nat) (h : ShowTimerInv s) :
    ShowTimerInv (s.fireShowTimer id).1 := by
  simp only [PopupState.fireShowTimer]
  split
  · next hmem =>
    apply showTimerInv_show'
    left
    rcases h with h | ⟨j, ha, hst, hw⟩
    · rw [h] at hmem
      cases hmem
    · have hj : id = j := by
        rw [ha] at hmem
        simpa using hmem
      simp [ha, hj]
  · exact h

/-- A hide timer elapsing preserves the single-show-timer invariant. -/
theorem showTimerInv_fireHideTimer {s : PopupState} (id : Nat) (h : ShowTimerInv s) :
    ShowTimerInv (s.fireHideTimer id).1 := by
  simp only [PopupState.fireHideTimer]
  split
  · exact showTimerInv_hide' (showTimerInv_of_fields h rfl rfl rfl)
  · exact h

/-- `clear()` preserves the single-show-timer invariant. -/
theorem showTimerInv_clear {s : PopupState} (h : ShowTimerInv s) :
    ShowTimerInv s.clear :=
  showTimerInv_of_fields (showTimerInv_willNotHide (showTimerInv_willNotShow h)) rfl rfl rfl

/-- Every operation preserves the single-show-timer invariant. -/
theorem showTimerInv_stepOp {s : PopupState} (op : PSOp) (h : ShowTimerInv s) :
    ShowTimerInv (s.stepOp op).1 := by
  cases op
  · exact showTimerInv_willShow _ h
  · exact showTimerInv_willNotShow h
  · exact showTimerInv_willHide _ h
  · exact showTimerInv_willNotHide h
  · exact showTimerInv_show' h
  · exact showTimerInv_hide' h
  · exact showTimerInv_clear h
  · exact showTimerInv_fireShowTimer _ h
  · exact showTimerInv_fireHideTimer _ h

/-- Under the invariant there is at most one outstanding show timer. -/
theorem showTimerInv_length {s : PopupState} (h : ShowTimerInv s) :
    s.activeShowTimers.length ≤ 1 := by
  rcases h with h | ⟨id, ha, _, _⟩
  · simp [h]
  · simp [ha]

/-- All states reached along a run satisfy the invariant. -/
theorem runStates_inv {s : PopupState} (ops : List PSOp) (h : ShowTimerInv s) :
    ∀ t ∈ s.runStates ops, ShowTimerInv t := by
  induction ops generalizing s with
  | nil =>
    intro t ht
    simp only [PopupState.runStates, List.mem_singleton] at ht
    rwa [ht]
  | cons op rest ih =>
    intro t ht
    simp only [PopupState.runStates, List.mem_cons] at ht
    rcases ht with rfl | ht
    · exact h
    · exact ih (showTimerInv_stepOp op h) t ht

/-- `show()` either fires nothing or fires one `do-show` and ends
opened. -/
theorem show'_shape (s : PopupState) :
    (s.show').2 = []
    ∨ ((s.show').2 = [BAction.fireDoShow] ∧ (s.show').1.opened = true) := by
  simp only [PopupState.show']
  split
  · exact Or.inl rfl
  · exact Or.inr ⟨rfl, rfl⟩

/-- A show-side operation on an opened state keeps it opened and fires
nothing: `willShow` is rejected, `willNotShow` only cancels, and an
elapsing timer runs an idempotent `show()`. -/
theorem showSide_step_opened {s : PopupState} {op : PSOp}
    (hop : isShowSideOp op = true) (ho : s.opened = true) :
    (s.stepOp op).1.opened = true ∧ (s.stepOp op).2 = [] := by
  cases op
  case willShow d =>
    simp [PopupState.stepOp, PopupState.willShow, ho]
  case willNotShow =>
    simp [PopupState.stepOp, PopupState.willNotShow, ho]
  case elapseShow id =>
    simp only [PopupState.stepOp, PopupState.fireShowTimer]
    split
    · simp [PopupState.show', PopupState.willNotShow, PopupState.willNotHide, ho]
    · simp [ho]
  all_goals simp [isShowSideOp] at hop

/-- A show-side operation fires nothing, or fires exactly one `do-show`
and ends opened. -/
theorem showSide_step_events {s : PopupState} {op : PSOp}
    (hop : isShowSideOp op = true) :
    (s.stepOp op).2 = []
    ∨ ((s.stepOp op).2 = [BAction.fireDoShow] ∧ (s.stepOp op).1.opened = true) := by
  cases op
  case willShow d =>
    simp only [PopupState.stepOp, PopupState.willShow]
    split
    · exact Or.inl rfl
    · split
      · exact Or.inl rfl
      · exact show'_shape s
  case willNotShow => exact Or.inl rfl
  case elapseShow id =>
    simp only [PopupState.stepOp, PopupState.fireShowTimer]
    split
    · exact show'_shape _
    · exact Or.inl rfl
  all_goals simp [isShowSideOp] at hop

/-- A show-side run from an opened state fires no further `do-show`. -/
theorem run_count_zero_of_opened {s : PopupState} (ops : List PSOp)
    (h : ∀ op ∈ ops, isShowSideOp op = true) (ho : s.opened = true) :
    ((s.run ops).2).count BAction.fireDoShow = 0 := by
  induction ops generalizing s with
  | nil => rfl
  | cons op rest ih =>
    have h1 := showSide_step_opened (h op (List.mem_cons_self op rest)) ho
    simp only [PopupState.run, List.count_append]
    rw [h1.2]
    simp only [List.count_nil, Nat.zero_add]
    exact ih (fun op' h' => h op' (List.mem_cons_of_mem _ h')) h1.1

/-- A show-side run fires `do-show` at most once. -/
theorem run_count_le_one {s : PopupState} (ops : List PSOp)
    (h : ∀ op ∈ ops, isShowSideOp op = true) :
    ((s.run ops).2).count BAction.fireDoShow ≤ 1 := by
  induction ops generalizing s with
  | nil => simp [PopupState.run]
  | cons op rest ih =>
    simp only [PopupState.run, List.count_append]
    rcases showSide_step_events (h op (List.mem_cons_self op rest)) with he | ⟨he, hop2⟩
    · rw [he]
      simpa using ih (fun op' h' => h op' (List.mem_cons_of_mem _ h'))
    · rw [he, run_count_zero_of_opened rest (fun op' h' => h op' (List.mem_cons_of_mem _ h')) hop2]
      simp

/-- C5: over every finite show-side interaction sequence (`willShow`
and `willNotShow` calls, plus show timers elapsing) starting from the
initial state, at most one show timer is outstanding at every point of
the run, and `do-show` fires at most once, so `opened` goes from false
to true at most once without an intervening hide or clear. -/
theorem c5_at_most_one_timer_and_one_open (ops : List PSOp)
    (h : ∀ op ∈ ops, isShowSideOp op = true) :
    ((PopupState.init.runStates ops).all
        (fun t => decide (t.activeShowTimers.length ≤ 1)) = true)
    ∧ ((PopupState.init.run ops).2).count BAction.fireDoShow ≤ 1 := by
  constructor
  · rw [List.all_eq_true]
    intro t ht
    have hinv := runStates_inv ops (Or.inl rfl) t ht
    simpa using showTimerInv_length hinv
  · exact run_count_le_one ops h

/-- Witness for C5: a concrete run with a cancelled delayed show, a
second delayed show whose timer fires, and two late requests. -/
theorem c5_witness :
    ((PopupState.init.runStates opsW).all
        (fun t => decide (t.activeShowTimers.length ≤ 1)) = true)
    ∧ ((PopupState.init.run opsW).2).count BAction.fireDoShow ≤ 1 :=
  c5_at_most_one_timer_and_one_open opsW (by decide)

end FlitUI
